import Mathlib

/-!
Verification of the fotomat image pipeline (package imager, file result.go)
and its request parameter mini-language, against the repository design notes.

The pixel engine (ImageMagick wand) is opaque native code; it is embedded as
an oracle recording, for one pipeline run, which engine calls fail and what
the decoded image looks like.  The pipeline functions below are line-by-line
translations of the Go source; machine integers (Go uint, int) are Nat and
Int with Go truncating division written Int.tdiv.
-/

namespace Fotomat

/-- Modelled from the spec: the EXIF-style Orientation enum (orientation.go is
not among the provided sources); values in the order the spec lists them. -/
inductive Orientation where
  | normal
  | flipHorizontal
  | rotate180
  | flipVertical
  | transpose
  | rotate90
  | transverse
  | rotate270
  deriving DecidableEq, Repr

/-- Modelled from the spec: Dimensions(w,h) returns (h,w) for the four
orientations that imply a 90 or 270 degree rotation, else (w,h) unchanged. -/
def Orientation.dimensions : Orientation → Nat → Nat → Nat × Nat
  | .transpose, w, h => (h, w)
  | .rotate90, w, h => (h, w)
  | .transverse, w, h => (h, w)
  | .rotate270, w, h => (h, w)
  | _, w, h => (w, h)

/-- The mutable fields of the Go Result struct that the transform operations
read and write: current working dimensions, orientation and the shrank flag.
The wand handle itself lives in the engine oracle. -/
structure ResultState where
  width : Nat
  height : Nat
  orientation : Orientation
  shrank : Bool
  deriving DecidableEq, Repr

/-- The fields of the Go Imager struct that NewResult reads: the declared
source dimensions, the configured blur factor and the orientation tag. -/
structure Imager where
  width : Nat
  height : Nat
  blurFactor : ℚ
  orientation : Orientation

/-- What GetImageProfile("icc") reports for the decoded image: no profile,
a profile equal to the reference sRGB profile, or some other profile. -/
inductive IccProfile where
  | noProfile
  | srgbRef
  | other
  deriving DecidableEq, Repr

/-- What GetImageColorspace reports: the reference sRGB space or another. -/
inductive Colorspace where
  | srgb
  | other
  deriving DecidableEq, Repr

/-- Oracle for the engine calls of one NewResult run: which fallible wand
calls fail, the decoded image's profile, colorspace and pixel dimensions. -/
structure Engine where
  setOptionFails : Bool
  readImageFails : Bool
  resetPageFails : Bool
  icc : IccProfile
  profileImageFails : Bool
  setColorspaceFails : Bool
  colorspace : Colorspace
  transformFails : Bool
  decodedWidth : Nat
  decodedHeight : Nat
  blurFails : Bool
  deriving DecidableEq, Repr

/-- Go applyColorProfile: returns (its Bool result, whether ProfileImage was
invoked).  No profile gives false; the reference profile gives true without
conversion; any other profile is converted and the call's success reported. -/
def applyColorProfile (e : Engine) : Bool × Bool :=
  match e.icc with
  | .noProfile => (false, false)
  | .srgbRef => (true, false)
  | .other => (!e.profileImageFails, true)

/-- Observable outcome of one NewResult run: the constructed state (none on
error), how many times Close ran inside NewResult before returning, which
color-normalization calls were issued, and the blur call with its radius. -/
structure NewResultTrace where
  result : Option ResultState
  closes : Nat
  profileImageCalled : Bool
  setColorspaceCalled : Bool
  transformCalled : Bool
  blurCalled : Bool
  blurRadius : ℚ

/-- Orientation-adjusted width of the decoded pixel buffer, what the source
stores into result.Width. -/
def workingW (img : Imager) (e : Engine) : Nat :=
  (img.orientation.dimensions e.decodedWidth e.decodedHeight).1

/-- Orientation-adjusted height of the decoded pixel buffer. -/
def workingH (img : Imager) (e : Engine) : Nat :=
  (img.orientation.dimensions e.decodedWidth e.decodedHeight).2

/-- The shrank flag NewResult sets: decode pre-scaling left both working
dimensions below the declared ones. -/
def preShrank (img : Imager) (e : Engine) : Bool :=
  decide (workingW img e < img.width) && decide (workingH img e < img.height)

/-- The source's pre-resize blur gate, in its operand order: blur factor
positive, swapped hint positive and below the declared img.Width and
img.Height in both axes.  width and height are the orientation-swapped
hint dimensions. -/
def blurGate (img : Imager) (width height : Nat) : Bool :=
  decide (0 < img.blurFactor) && decide (0 < width) &&
    decide (width < img.width) && decide (0 < height) &&
    decide (height < img.height)

/-- The blur radius the source computes: working width over swapped hint
width (the sigma passed on is BlurFactor times this radius). -/
def radiusOf (img : Imager) (e : Engine) (width : Nat) : ℚ :=
  (workingW img e : ℚ) / (width : ℚ)

/-- Whether the source calls TransformImageColorspace: applyColorProfile
returned false and the working colorspace is not sRGB. -/
def transformGate (e : Engine) : Bool :=
  !(applyColorProfile e).1 && decide (e.colorspace ≠ Colorspace.srgb)

/-- Go NewResult, step for step.  hintWidth and hintHeight are the caller's
target dimensions; the source first swaps them per the orientation, sets the
jpeg pre-scale hint, decodes, resets frame and page, normalizes color,
records orientation-adjusted working dimensions, sets shrank when decode
pre-scaling reduced both dimensions, and finally applies the conditional
pre-resize blur.  Every error return before the blur calls Close first; the
blur error return in the source does not, which the trace records. -/
def newResult (img : Imager) (e : Engine) (hintWidth hintHeight : Nat) :
    NewResultTrace :=
  if (decide (0 < (img.orientation.dimensions hintWidth hintHeight).1) &&
      decide (0 < (img.orientation.dimensions hintWidth hintHeight).2)) &&
      e.setOptionFails then
    ⟨none, 1, false, false, false, false, 0⟩
  else if e.readImageFails then
    ⟨none, 1, false, false, false, false, 0⟩
  else if e.resetPageFails then
    ⟨none, 1, false, false, false, false, 0⟩
  else if (applyColorProfile e).1 && e.setColorspaceFails then
    ⟨none, 1, (applyColorProfile e).2, true, false, false, 0⟩
  else if transformGate e && e.transformFails then
    ⟨none, 1, (applyColorProfile e).2, false, true, false, 0⟩
  else if blurGate img (img.orientation.dimensions hintWidth hintHeight).1
      (img.orientation.dimensions hintWidth hintHeight).2 && e.blurFails then
    ⟨none, 0, (applyColorProfile e).2, (applyColorProfile e).1, transformGate e,
      true, radiusOf img e (img.orientation.dimensions hintWidth hintHeight).1⟩
  else
    ⟨some ⟨workingW img e, workingH img e, img.orientation, preShrank img e⟩, 0,
      (applyColorProfile e).2, (applyColorProfile e).1, transformGate e,
      blurGate img (img.orientation.dimensions hintWidth hintHeight).1
        (img.orientation.dimensions hintWidth hintHeight).2,
      if blurGate img (img.orientation.dimensions hintWidth hintHeight).1
          (img.orientation.dimensions hintWidth hintHeight).2 then
        radiusOf img e (img.orientation.dimensions hintWidth hintHeight).1
      else 0⟩

/-- The filter condition of Go Resize: Lanczos exactly when both target
dimensions are below current minus current/40 (uint arithmetic; current/40
never exceeds current, so Nat subtraction agrees with Go uint). -/
def hqFilter (st : ResultState) (width height : Nat) : Bool :=
  decide (width < st.width - st.width / 40) &&
    decide (height < st.height - st.height / 40)

/-- Go Resize: on engine failure it returns the error with the receiver
untouched; on success it writes the new dimensions and sets shrank to the
filter condition.  resizeFails is the ResizeImage call's outcome. -/
def resize (st : ResultState) (resizeFails : Bool) (width height : Nat) :
    ResultState × Option Unit :=
  if resizeFails then (st, some ())
  else (⟨width, height, st.orientation, hqFilter st width height⟩, none)

/-- The x offset Go Crop computes: (int(Width) - int(width) + 1) / 2 with
Go int division, which truncates toward zero (Int.tdiv). -/
def cropX (st : ResultState) (width : Nat) : Int :=
  Int.tdiv ((st.width : Int) - (width : Int) + 1) 2

/-- The y offset Go Crop computes, same formula on the height axis. -/
def cropY (st : ResultState) (height : Nat) : Int :=
  Int.tdiv ((st.height : Int) - (height : Int) + 1) 2

/-- The logical crop box Go Crop hands to Orientation.Crop and thence to the
engine's CropImage, exactly as computed: no clamping, no range check. -/
structure CropBox where
  w : Nat
  h : Nat
  x : Int
  y : Int
  deriving DecidableEq, Repr

/-- The box Crop builds from the current state and the requested size. -/
def cropBox (st : ResultState) (width height : Nat) : CropBox :=
  ⟨width, height, cropX st width, cropY st height⟩

/-- Go Crop: computes the centered box, calls the engine unconditionally; on
engine failure returns the error with the receiver untouched, on success
writes only the new dimensions (orientation and shrank untouched). -/
def crop (st : ResultState) (cropFails : Bool) (width height : Nat) :
    ResultState × Option Unit :=
  if cropFails then (st, some ())
  else (⟨width, height, st.orientation, st.shrank⟩, none)

/-- A validated transform operation of the request mini-language. -/
inductive Op where
  | scale (w h : Nat)
  | crop (w h : Nat)
  | previewScale (w h : Nat)
  deriving DecidableEq, Repr

/-- Width of an operation. -/
def Op.w : Op → Nat
  | .scale w _ => w
  | .crop w _ => w
  | .previewScale w _ => w

/-- Height of an operation. -/
def Op.h : Op → Nat
  | .scale _ h => h
  | .crop _ h => h
  | .previewScale _ h => h

/-- Whether an operation belongs to the scale family (scale or preview). -/
def Op.isScaleFamily : Op → Bool
  | .scale _ _ => true
  | .previewScale _ _ => true
  | .crop _ _ => false

/-- Numeric value of a decimal digit character. -/
def digitVal (c : Char) : Nat := c.toNat - Char.toNat ('0')

/-- Accumulating decimal reader: fails on the first non-digit. -/
def parseNatAux : List Char → Nat → Option Nat
  | [], acc => some acc
  | c :: cs, acc =>
    if c.isDigit then parseNatAux cs (acc * 10 + digitVal c) else none

/-- Decimal reader: a nonempty all-digit string, as strconv.Atoi accepts. -/
def parseNat : List Char → Option Nat
  | [] => none
  | c :: cs => parseNatAux (c :: cs) 0

/-- Modelled from the spec: read the WxH payload of a segment — a decimal
width, the letter x, then a decimal height filling the rest. -/
def parseDims (cs : List Char) : Option (Nat × Nat) :=
  match parseNat (cs.takeWhile Char.isDigit) with
  | none => none
  | some w =>
    match cs.dropWhile Char.isDigit with
    | 'x' :: hs =>
      match parseNat hs with
      | none => none
      | some h => some (w, h)
    | _ => none

/-- Modelled from the spec: a dimension is valid when inside [16, 2048]. -/
def dimOk (n : Nat) : Bool := decide (16 ≤ n) && decide (n ≤ 2048)

/-- Modelled from the spec: one plan segment is an operation letter followed
by WxH with both dimensions in range.  The preview flag is the letter p
placed before s, as the repository's tests require (TestSuccess uses
ps100x100 and TestParameterValidation rejects sp16x16 with the comment that
the preview flag must be a prefix); the spec's prose writes the same
operation as sp. -/
def parseSegment (cs : List Char) : Option Op :=
  match cs with
  | 'p' :: 's' :: rest =>
    match parseDims rest with
    | some (w, h) =>
      if dimOk w && dimOk h then some (.previewScale w h) else none
    | none => none
  | 's' :: rest =>
    match parseDims rest with
    | some (w, h) => if dimOk w && dimOk h then some (.scale w h) else none
    | none => none
  | 'c' :: rest =>
    match parseDims rest with
    | some (w, h) => if dimOk w && dimOk h then some (.crop w h) else none
    | none => none
  | _ => none

/-- Parse every segment in order; any unrecognized segment rejects. -/
def parseSegments : List (List Char) → Option (List Op)
  | [] => some []
  | seg :: rest =>
    match parseSegment seg, parseSegments rest with
    | some op, some ops => some (op :: ops)
    | _, _ => none

/-- Number of scale-family operations in a plan. -/
def countScale (ops : List Op) : Nat := (ops.filter Op.isScaleFamily).length

/-- Modelled from the spec: a plan needs at least one operation and at most
one scale-family operation; otherwise BadRequest (none). -/
def parseOps (segs : List (List Char)) : Option (List Op) :=
  match parseSegments segs with
  | none => none
  | some ops =>
    if ops.isEmpty then none
    else if 2 ≤ countScale ops then none
    else some ops

/-- Split a character list at every occurrence of the equals sign. -/
def splitEq : List Char → List (List Char)
  | [] => [[]]
  | '=' :: rest => [] :: splitEq rest
  | c :: rest =>
    match splitEq rest with
    | [] => [[c]]
    | s :: ss => (c :: s) :: ss

/-- Modelled from the spec: the request path splits on the equals sign into
a filename and plan segments; the plan is validated by parseOps.  none is
the BadRequest outcome. -/
def parseRequest (s : String) : Option (List Op) :=
  match splitEq s.toList with
  | [] => none
  | _ :: segs => parseOps segs

lemma parseNatAux_digits {cs : List Char} :
    ∀ {acc n : Nat}, parseNatAux cs acc = some n → ∀ c ∈ cs, c.isDigit = true := by
  induction cs with
  | nil => intro acc n _ c hc; cases hc
  | cons d cs ih =>
    intro acc n h c hc
    unfold parseNatAux at h
    by_cases hd : d.isDigit = true
    · rw [if_pos hd] at h
      rcases List.mem_cons.mp hc with rfl | hc
      · exact hd
      · exact ih h c hc
    · rw [if_neg hd] at h
      cases h

lemma parseNat_digits {cs : List Char} {n : Nat} (h : parseNat cs = some n) :
    ∀ c ∈ cs, c.isDigit = true := by
  cases cs with
  | nil => intro c hc; cases hc
  | cons d cs => exact parseNatAux_digits h

lemma takeWhile_all_append {p : Char → Bool} {d : Char} (ws hs : List Char)
    (hd : p d = false) (hall : ∀ c ∈ ws, p c = true) :
    List.takeWhile p (ws ++ d :: hs) = ws := by
  induction ws with
  | nil => simp [List.takeWhile_cons, hd]
  | cons c ws ih =>
    have hc : p c = true := hall c (List.mem_cons_self c ws)
    simp only [List.cons_append, List.takeWhile_cons, hc, if_true]
    rw [ih (fun a ha => hall a (List.mem_cons_of_mem c ha))]

lemma dropWhile_all_append {p : Char → Bool} {d : Char} (ws hs : List Char)
    (hd : p d = false) (hall : ∀ c ∈ ws, p c = true) :
    List.dropWhile p (ws ++ d :: hs) = d :: hs := by
  induction ws with
  | nil => simp [List.dropWhile_cons, hd]
  | cons c ws ih =>
    have hc : p c = true := hall c (List.mem_cons_self c ws)
    simp only [List.cons_append, List.dropWhile_cons, hc, if_true]
    exact ih (fun a ha => hall a (List.mem_cons_of_mem c ha))

lemma parseDims_of_parts {ws hs : List Char} {w h : Nat}
    (hw : parseNat ws = some w) (hh : parseNat hs = some h) :
    parseDims (ws ++ 'x' :: hs) = some (w, h) := by
  have hx : Char.isDigit 'x' = false := by decide
  unfold parseDims
  rw [takeWhile_all_append ws hs hx (parseNat_digits hw),
    dropWhile_all_append ws hs hx (parseNat_digits hw), hw]
  simp [hh]

lemma parseSegment_s (rest : List Char) :
    parseSegment ('s' :: rest) =
      match parseDims rest with
      | some (w, h) => if dimOk w && dimOk h then some (.scale w h) else none
      | none => none := rfl

lemma parseSegment_c (rest : List Char) :
    parseSegment ('c' :: rest) =
      match parseDims rest with
      | some (w, h) => if dimOk w && dimOk h then some (.crop w h) else none
      | none => none := rfl

lemma parseSegment_scale_eq {ws hs : List Char} {w h : Nat}
    (hw : parseNat ws = some w) (hh : parseNat hs = some h) :
    parseSegment ('s' :: (ws ++ 'x' :: hs)) =
      if dimOk w && dimOk h then some (.scale w h) else none := by
  rw [parseSegment_s, parseDims_of_parts hw hh]

lemma parseSegment_crop_eq {ws hs : List Char} {w h : Nat}
    (hw : parseNat ws = some w) (hh : parseNat hs = some h) :
    parseSegment ('c' :: (ws ++ 'x' :: hs)) =
      if dimOk w && dimOk h then some (.crop w h) else none := by
  rw [parseSegment_c, parseDims_of_parts hw hh]

lemma parseSegment_dims {cs : List Char} {op : Op}
    (h : parseSegment cs = some op) : dimOk op.w = true ∧ dimOk op.h = true := by
  unfold parseSegment at h
  split at h
  · split at h
    · split at h
      · rename_i hcond
        injection h with h
        subst h
        exact And.imp (fun x => x) (fun x => x)
          (Bool.and_eq_true _ _ |>.mp hcond)
      · cases h
    · cases h
  · split at h
    · split at h
      · rename_i hcond
        injection h with h
        subst h
        exact And.imp (fun x => x) (fun x => x)
          (Bool.and_eq_true _ _ |>.mp hcond)
      · cases h
    · cases h
  · split at h
    · split at h
      · rename_i hcond
        injection h with h
        subst h
        exact And.imp (fun x => x) (fun x => x)
          (Bool.and_eq_true _ _ |>.mp hcond)
      · cases h
    · cases h
  · cases h

lemma parseSegments_dims {segs : List (List Char)} :
    ∀ {ops : List Op}, parseSegments segs = some ops →
      ∀ op ∈ ops, dimOk op.w = true ∧ dimOk op.h = true := by
  induction segs with
  | nil =>
    intro ops h op hop
    unfold parseSegments at h
    injection h with h
    subst h
    cases hop
  | cons seg rest ih =>
    intro ops h op hop
    unfold parseSegments at h
    split at h
    · rename_i op0 ops0 hseg hrest
      injection h with h
      subst h
      rcases List.mem_cons.mp hop with rfl | hop
      · exact parseSegment_dims hseg
      · exact ih hrest op hop
    · cases h

lemma parseOps_dims {segs : List (List Char)} {ops : List Op}
    (h : parseOps segs = some ops) :
    ∀ op ∈ ops, dimOk op.w = true ∧ dimOk op.h = true := by
  unfold parseOps at h
  split at h
  · cases h
  · rename_i ops0 hsegs
    split at h
    · cases h
    · split at h
      · cases h
      · injection h with h
        subst h
        exact parseSegments_dims hsegs

lemma parseSegments_none {segs : List (List Char)} {seg : List Char}
    (hmem : seg ∈ segs) (hnone : parseSegment seg = none) :
    parseSegments segs = none := by
  induction segs with
  | nil => cases hmem
  | cons s rest ih =>
    unfold parseSegments
    rcases List.mem_cons.mp hmem with rfl | hmem
    · rw [hnone]
    · rw [ih hmem]
      rcases parseSegment s with _ | op <;> rfl

lemma blurGate_iff (img : Imager) (w h : Nat) :
    blurGate img w h = true ↔
      (0 < img.blurFactor ∧ 0 < w ∧ w < img.width ∧ 0 < h ∧ h < img.height) := by
  simp [blurGate, and_assoc]

/-- Concrete Imager for the blur claims: declared 1000 by 1000, blur factor
1, normal orientation. -/
def blurImg : Imager := ⟨1000, 1000, 1, Orientation.normal⟩

/-- Concrete engine run: decode succeeds at pre-scaled 400 by 400, no
profile, already sRGB, every call succeeds except none. -/
def blurEngOk : Engine :=
  ⟨false, false, false, .noProfile, false, false, .srgb, false, 400, 400, false⟩

/-- Same run but the GaussianBlurImage call fails. -/
def blurEngFail : Engine :=
  ⟨false, false, false, .noProfile, false, false, .srgb, false, 400, 400, true⟩

/-- C1: every error return of NewResult before the blur step calls Close
exactly once, but on the failing input below — blur factor 1, declared
1000x1000, hint 500x500, decode pre-scaled to 400x400, GaussianBlurImage
failing — NewResult returns an error having called Close zero times: the
pixel wand leaks, contradicting the exactly-once release property. -/
theorem C1_release_discipline :
    (∀ (img : Imager) (e : Engine) (hw hh : Nat),
      (newResult img e hw hh).result = none →
      (newResult img e hw hh).blurCalled = false →
      (newResult img e hw hh).closes = 1) ∧
    (newResult blurImg blurEngFail 500 500).result = none ∧
    (newResult blurImg blurEngFail 500 500).blurCalled = true ∧
    (newResult blurImg blurEngFail 500 500).closes = 0 := by
  refine ⟨?_, by decide, by decide, by decide⟩
  intro img e hw hh h1 h2
  unfold newResult at h1 h2 ⊢
  split_ifs at h1 h2 ⊢ <;> simp_all

/-- C1 witness: the general release conjunct applied at a concrete failing
decode (ReadImageBlob fails): one Close before the error return. -/
theorem C1_release_discipline_witness :
    (newResult blurImg
        ⟨false, true, false, .noProfile, false, false, .srgb, false, 0, 0, false⟩
        500 500).result = none ∧
    (newResult blurImg
        ⟨false, true, false, .noProfile, false, false, .srgb, false, 0, 0, false⟩
        500 500).closes = 1 :=
  ⟨by decide, C1_release_discipline.1 blurImg
    ⟨false, true, false, .noProfile, false, false, .srgb, false, 0, 0, false⟩
    500 500 (by decide) (by decide)⟩

/-- C2 counterexample: a segment written sp100x100 is rejected by the
parser (none is the BadRequest outcome), exactly as the repository's test
demands for sp16x16 — the claim says it is accepted. -/
theorem C2_sp_is_rejected :
    parseRequest ("watermelon.jpg=sp100x100") = none := by decide

/-- C2 (amended): the preview-scale flag p is a prefix of the s operation:
ps100x100 is accepted and produces the preview-scale plan, while the spec's
sp spelling is rejected with BadRequest. -/
theorem C2_ps_is_accepted :
    parseRequest ("watermelon.jpg=ps100x100") = some [Op.previewScale 100 100] := by
  decide

/-- C3 counterexample: a pipeline whose decode pre-scaled 1000x1000 down to
400x400 starts with shrank true, yet a subsequent enlarging Resize to
500x500 succeeds and resets shrank to false — the flag is not sticky. -/
theorem C3_shrank_not_sticky :
    (newResult ⟨1000, 1000, 0, Orientation.normal⟩ blurEngOk 0 0).result =
      some ⟨400, 400, Orientation.normal, true⟩ ∧
    resize ⟨400, 400, Orientation.normal, true⟩ false 500 500 =
      (⟨500, 500, Orientation.normal, false⟩, none) := by decide

/-- C3 (amended): shrank is not sticky across operations: every successful
Resize overwrites it with exactly that call's high-quality-filter condition
(possibly resetting true to false), and Crop never changes it. -/
theorem C3_shrank_semantics :
    (∀ (st : ResultState) (f : Bool) (w h : Nat),
      (resize st f w h).2 = none →
      ((resize st f w h).1).shrank = hqFilter st w h) ∧
    (∀ (st : ResultState) (f : Bool) (w h : Nat),
      ((crop st f w h).1).shrank = st.shrank) := by
  constructor
  · intro st f w h hnone
    cases f <;> simp [resize] at hnone ⊢
  · intro st f w h
    cases f <;> simp [crop]

/-- C3 witness: the amended Resize conjunct at the concrete enlarging call
of the counterexample. -/
theorem C3_shrank_semantics_witness :
    (resize ⟨400, 400, Orientation.normal, true⟩ false 500 500).2 = none ∧
    ((resize ⟨400, 400, Orientation.normal, true⟩ false 500 500).1).shrank =
      hqFilter ⟨400, 400, Orientation.normal, true⟩ 500 500 :=
  ⟨by decide, C3_shrank_semantics.1 ⟨400, 400, Orientation.normal, true⟩
    false 500 500 (by decide)⟩

/-- C4: the Lanczos filter is chosen iff both targets are under current
minus current/40; a shrink of at most 2.5 percent in either axis never
chooses it, a shrink of more than 2.5 percent in both axes always does,
enlargement (or no change) in either axis never does, and a successful
Resize records shrank exactly when the filter was high-quality. -/
theorem C4_filter_selection :
    (∀ (st : ResultState) (w h : Nat),
      hqFilter st w h = true ↔
        (w < st.width - st.width / 40 ∧ h < st.height - st.height / 40)) ∧
    (∀ (st : ResultState) (w h : Nat),
      40 * (st.width - w) ≤ st.width → hqFilter st w h = false) ∧
    (∀ (st : ResultState) (w h : Nat),
      40 * (st.height - h) ≤ st.height → hqFilter st w h = false) ∧
    (∀ (st : ResultState) (w h : Nat),
      st.width < 40 * (st.width - w) → st.height < 40 * (st.height - h) →
      hqFilter st w h = true) ∧
    (∀ (st : ResultState) (w h : Nat), st.width ≤ w → hqFilter st w h = false) ∧
    (∀ (st : ResultState) (w h : Nat), st.height ≤ h → hqFilter st w h = false) ∧
    (∀ (st : ResultState) (f : Bool) (w h : Nat),
      (resize st f w h).2 = none →
      ((resize st f w h).1).shrank = hqFilter st w h) := by
  refine ⟨?_, ?_, ?_, ?_, ?_, ?_, ?_⟩
  · intro st w h
    simp [hqFilter]
  · intro st w h hle
    have hn : ¬ (w < st.width - st.width / 40) := by omega
    simp [hqFilter, hn]
  · intro st w h hle
    have hn : ¬ (h < st.height - st.height / 40) := by omega
    simp [hqFilter, hn]
  · intro st w h hws hhs
    have h1 : w < st.width - st.width / 40 := by omega
    have h2 : h < st.height - st.height / 40 := by omega
    simp [hqFilter, h1, h2]
  · intro st w h hle
    have hn : ¬ (w < st.width - st.width / 40) := by omega
    simp [hqFilter, hn]
  · intro st w h hle
    have hn : ¬ (h < st.height - st.height / 40) := by omega
    simp [hqFilter, hn]
  · intro st f w h hnone
    cases f <;> simp [resize] at hnone ⊢

/-- C4 witness: a 10 percent shrink in both axes at 100x100 (more than 2.5
percent) chooses the high-quality filter. -/
theorem C4_filter_selection_witness :
    (100 < 40 * (100 - 90) ∧ 100 < 40 * (100 - 90)) ∧
    hqFilter ⟨100, 100, Orientation.normal, false⟩ 90 90 = true :=
  ⟨by decide, C4_filter_selection.2.2.2.1 ⟨100, 100, Orientation.normal, false⟩
    90 90 (by decide) (by decide)⟩

/-- C5 counterexample: declared 1000x1000, hint 500x500, decode pre-scaled
to 400x400: the working dimensions (400) are smaller than the hint (500),
so the claim's gate (hint smaller than working dimensions) is false, yet
the source applies the blur because it compares the hint against the
declared dimensions. -/
theorem C5_gate_compares_declared :
    (newResult blurImg blurEngOk 500 500).blurCalled = true ∧
    (newResult blurImg blurEngOk 500 500).result =
      some ⟨400, 400, Orientation.normal, true⟩ ∧
    ¬ (500 < 400) := by decide

/-- C5 (amended): once construction reaches the blur step, the pre-resize
blur runs iff the blur factor is positive and the orientation-adjusted hint
dimensions are positive and smaller than the declared img.Width and
img.Height in both axes; its radius is the orientation-adjusted working
width divided by the orientation-adjusted hint width. -/
theorem C5_blur_gate (img : Imager) (e : Engine) (hw hh : Nat)
    (h1 : e.setOptionFails = false) (h2 : e.readImageFails = false)
    (h3 : e.resetPageFails = false) (h4 : e.setColorspaceFails = false)
    (h5 : e.transformFails = false) :
    ((newResult img e hw hh).blurCalled = true ↔
      (0 < img.blurFactor ∧ 0 < (img.orientation.dimensions hw hh).1 ∧
        (img.orientation.dimensions hw hh).1 < img.width ∧
        0 < (img.orientation.dimensions hw hh).2 ∧
        (img.orientation.dimensions hw hh).2 < img.height)) ∧
    ((newResult img e hw hh).blurCalled = true →
      (newResult img e hw hh).blurRadius =
        (((img.orientation.dimensions e.decodedWidth e.decodedHeight).1 : ℚ) /
          ((img.orientation.dimensions hw hh).1 : ℚ))) := by
  rw [← blurGate_iff img (img.orientation.dimensions hw hh).1
    (img.orientation.dimensions hw hh).2]
  unfold newResult
  rw [h1, h2, h3, h4, h5]
  cases hbf : e.blurFails <;>
    cases hg : blurGate img (img.orientation.dimensions hw hh).1
      (img.orientation.dimensions hw hh).2 <;>
    simp_all [radiusOf, workingW]

/-- C5 witness: the amended gate and radius at the counterexample input. -/
theorem C5_blur_gate_witness :
    ((newResult blurImg blurEngOk 500 500).blurCalled = true ↔
      (0 < blurImg.blurFactor ∧ 0 < 500 ∧ 500 < blurImg.width ∧
        0 < 500 ∧ 500 < blurImg.height)) ∧
    ((newResult blurImg blurEngOk 500 500).blurCalled = true →
      (newResult blurImg blurEngOk 500 500).blurRadius =
        (((400 : Nat) : ℚ) / ((500 : Nat) : ℚ))) :=
  C5_blur_gate blurImg blurEngOk 500 500 rfl rfl rfl rfl rfl

/-- C6 counterexample: cropping 5x5 to 2x2 leaves an odd margin of 3; the
computed offset is 2, so two pixels are removed from the leading (left)
side and one from the trailing side — not the trailing side as claimed. -/
theorem C6_odd_margin_goes_leading :
    cropBox ⟨5, 5, Orientation.normal, false⟩ 2 2 = ⟨2, 2, 2, 2⟩ ∧
    ¬ ((5 : Int) - 2 - (cropBox ⟨5, 5, Orientation.normal, false⟩ 2 2).x =
        (cropBox ⟨5, 5, Orientation.normal, false⟩ 2 2).x + 1) := by decide

/-- C6 (amended): for targets within the current dimensions the crop is
centered with top-left ((W - w + 1)/2, (H - h + 1)/2); an even margin is
split equally and an odd margin removes the extra pixel from the leading
(left/top) side, because the offset formula rounds up. -/
theorem C6_center_crop (st : ResultState) (w h : Nat)
    (hw : w ≤ st.width) (hh : h ≤ st.height) :
    (cropBox st w h).x = ((st.width - w + 1) / 2 : Nat) ∧
    (cropBox st w h).y = ((st.height - h + 1) / 2 : Nat) ∧
    ((st.width - w) % 2 = 0 →
      (st.width : Int) - w - (cropBox st w h).x = (cropBox st w h).x) ∧
    ((st.width - w) % 2 = 1 →
      (cropBox st w h).x = ((st.width : Int) - w - (cropBox st w h).x) + 1) ∧
    ((st.height - h) % 2 = 0 →
      (st.height : Int) - h - (cropBox st w h).y = (cropBox st w h).y) ∧
    ((st.height - h) % 2 = 1 →
      (cropBox st w h).y = ((st.height : Int) - h - (cropBox st w h).y) + 1) := by
  have hx : (cropBox st w h).x = ((st.width - w + 1) / 2 : Nat) := by
    show Int.tdiv ((st.width : Int) - (w : Int) + 1) 2 = ((st.width - w + 1) / 2 : Nat)
    rw [show (st.width : Int) - (w : Int) + 1 = ((st.width - w + 1 : Nat) : Int) by
      omega]
    rfl
  have hy : (cropBox st w h).y = ((st.height - h + 1) / 2 : Nat) := by
    show Int.tdiv ((st.height : Int) - (h : Int) + 1) 2 = ((st.height - h + 1) / 2 : Nat)
    rw [show (st.height : Int) - (h : Int) + 1 = ((st.height - h + 1 : Nat) : Int) by
      omega]
    rfl
  refine ⟨hx, hy, ?_, ?_, ?_, ?_⟩ <;> intro hpar <;> simp only [hx, hy] <;> omega

/-- C6 witness: the amended statement's x-offset at the odd-margin crop of
the counterexample. -/
theorem C6_center_crop_witness :
    (cropBox ⟨5, 5, Orientation.normal, false⟩ 2 2).x = ((5 - 2 + 1) / 2 : Nat) :=
  (C6_center_crop ⟨5, 5, Orientation.normal, false⟩ 2 2 (by decide) (by decide)).1

/-- C7: accepted plans only ever contain dimensions inside [16, 2048] (so a
plan with a dimension equal to 0, below 16 or above 2048 is rejected); any
scale or crop segment carrying an out-of-range dimension rejects the whole
plan with BadRequest; and in-range dimensions are never rejected for being
out of range: a lone scale or crop segment with dimensions in [16, 2048]
parses to the corresponding operation. -/
theorem C7_dimension_range :
    (∀ (s : String) (ops : List Op), parseRequest s = some ops →
      ∀ op ∈ ops, 16 ≤ op.w ∧ op.w ≤ 2048 ∧ 16 ≤ op.h ∧ op.h ≤ 2048) ∧
    (∀ (ws hs : List Char) (w h : Nat) (segs : List (List Char)),
      parseNat ws = some w → parseNat hs = some h →
      ¬ (16 ≤ w ∧ w ≤ 2048 ∧ 16 ≤ h ∧ h ≤ 2048) →
      (('s' :: (ws ++ 'x' :: hs)) ∈ segs ∨ ('c' :: (ws ++ 'x' :: hs)) ∈ segs) →
      parseOps segs = none) ∧
    (∀ (ws hs : List Char) (w h : Nat),
      parseNat ws = some w → parseNat hs = some h →
      16 ≤ w → w ≤ 2048 → 16 ≤ h → h ≤ 2048 →
      parseOps [('s' :: (ws ++ 'x' :: hs))] = some [Op.scale w h] ∧
      parseOps [('c' :: (ws ++ 'x' :: hs))] = some [Op.crop w h]) := by
  refine ⟨?_, ?_, ?_⟩
  · intro s ops h op hop
    unfold parseRequest at h
    split at h
    · cases h
    · have hd := parseOps_dims h op hop
      rcases hd with ⟨hdw, hdh⟩
      simp only [dimOk, Bool.and_eq_true, decide_eq_true_eq] at hdw hdh
      exact ⟨hdw.1, hdw.2, hdh.1, hdh.2⟩
  · intro ws hs w h segs hw hh hbad hmem
    have hcond : (dimOk w && dimOk h) = false := by
      cases hdo : (dimOk w && dimOk h)
      · rfl
      · exfalso
        apply hbad
        simp only [dimOk, Bool.and_eq_true, decide_eq_true_eq] at hdo
        exact ⟨hdo.1.1, hdo.1.2, hdo.2.1, hdo.2.2⟩
    have hnone : parseSegments segs = none := by
      rcases hmem with hmem | hmem
      · refine parseSegments_none hmem ?_
        rw [parseSegment_scale_eq hw hh, hcond]
        rfl
      · refine parseSegments_none hmem ?_
        rw [parseSegment_crop_eq hw hh, hcond]
        rfl
    unfold parseOps
    rw [hnone]
  · intro ws hs w h hw hh h16w h2048w h16h h2048h
    have hcond : (dimOk w && dimOk h) = true := by
      simp only [dimOk, Bool.and_eq_true, decide_eq_true_eq]
      exact ⟨⟨h16w, h2048w⟩, ⟨h16h, h2048h⟩⟩
    constructor
    · have hseg : parseSegment ('s' :: (ws ++ 'x' :: hs)) = some (.scale w h) := by
        rw [parseSegment_scale_eq hw hh, hcond]
        rfl
      unfold parseOps parseSegments parseSegments
      rw [hseg]
      rfl
    · have hseg : parseSegment ('c' :: (ws ++ 'x' :: hs)) = some (.crop w h) := by
        rw [parseSegment_crop_eq hw hh, hcond]
        rfl
      unfold parseOps parseSegments parseSegments
      rw [hseg]
      rfl

/-- C7 witness: the in-range acceptance conjunct at the concrete segment
s100x200, and the rejection conjunct at the concrete segment s10x20. -/
theorem C7_dimension_range_witness :
    (16 ≤ 100 ∧ 100 ≤ 2048 ∧ 16 ≤ 200 ∧ 200 ≤ 2048) ∧
    parseOps [('s' :: (('1' :: '0' :: '0' :: []) ++ 'x' :: ('2' :: '0' :: '0' :: [])))] =
      some [Op.scale 100 200] :=
  ⟨by decide, (C7_dimension_range.2.2 ('1' :: '0' :: '0' :: [])
    ('2' :: '0' :: '0' :: []) 100 200 rfl rfl (by decide) (by decide) (by decide)
    (by decide)).1⟩

/-- Concrete Imager and engine for the color claims: no embedded profile
and an already-sRGB colorspace, decode at the declared size. -/
def colorImg : Imager := ⟨1000, 1000, 0, Orientation.normal⟩

/-- Engine where the decoded image has no profile and is already sRGB. -/
def colorEng : Engine :=
  ⟨false, false, false, .noProfile, false, false, .srgb, false, 1000, 1000, false⟩

/-- C8 counterexample: with no embedded profile and an already-sRGB working
colorspace, NewResult succeeds executing none of the three normalization
paths — not exactly one as claimed. -/
theorem C8_no_path_runs :
    (newResult colorImg colorEng 0 0).profileImageCalled = false ∧
    (newResult colorImg colorEng 0 0).setColorspaceCalled = false ∧
    (newResult colorImg colorEng 0 0).transformCalled = false ∧
    (newResult colorImg colorEng 0 0).result =
      some ⟨1000, 1000, Orientation.normal, false⟩ := by decide

/-- C8 (amended): once decode and page reset succeed, ProfileImage runs iff
a non-reference profile is embedded; the mark-as-sRGB call runs iff the
reference profile is embedded or a different profile was applied
successfully; the direct colorspace transform runs iff the colorspace is
not the reference space and either no profile is embedded or the profile
application failed.  In particular no path runs when no profile is present
and the colorspace is already the reference space. -/
theorem C8_color_paths (img : Imager) (e : Engine) (hw hh : Nat)
    (h1 : e.setOptionFails = false) (h2 : e.readImageFails = false)
    (h3 : e.resetPageFails = false) :
    ((newResult img e hw hh).profileImageCalled = true ↔
      e.icc = IccProfile.other) ∧
    ((newResult img e hw hh).setColorspaceCalled = true ↔
      (e.icc = IccProfile.srgbRef ∨
        (e.icc = IccProfile.other ∧ e.profileImageFails = false))) ∧
    ((newResult img e hw hh).transformCalled = true ↔
      ((e.icc = IccProfile.noProfile ∨
        (e.icc = IccProfile.other ∧ e.profileImageFails = true)) ∧
        e.colorspace ≠ Colorspace.srgb)) := by
  unfold newResult transformGate applyColorProfile
  rw [h1, h2, h3]
  cases hicc : e.icc <;> cases hpif : e.profileImageFails <;>
    cases hscf : e.setColorspaceFails <;> cases hcs : e.colorspace <;>
      cases htf : e.transformFails <;> simp_all <;> split <;> simp_all

/-- C8 witness: the amended characterization at the concrete profile-free
already-sRGB run. -/
theorem C8_color_paths_witness :
    ((newResult colorImg colorEng 0 0).profileImageCalled = true ↔
      colorEng.icc = IccProfile.other) ∧
    ((newResult colorImg colorEng 0 0).setColorspaceCalled = true ↔
      (colorEng.icc = IccProfile.srgbRef ∨
        (colorEng.icc = IccProfile.other ∧ colorEng.profileImageFails = false))) ∧
    ((newResult colorImg colorEng 0 0).transformCalled = true ↔
      ((colorEng.icc = IccProfile.noProfile ∨
        (colorEng.icc = IccProfile.other ∧ colorEng.profileImageFails = true)) ∧
        colorEng.colorspace ≠ Colorspace.srgb)) :=
  C8_color_paths colorImg colorEng 0 0 rfl rfl rfl

/-- C9: a successful Crop writes exactly the new width and height, leaving
orientation and shrank untouched, and a failed engine call in Crop or
Resize leaves the whole state unchanged. -/
theorem C9_frame_effects :
    (∀ (st : ResultState) (f : Bool) (w h : Nat),
      (crop st f w h).2 = none →
      (crop st f w h).1 = ⟨w, h, st.orientation, st.shrank⟩) ∧
    (∀ (st : ResultState) (w h : Nat), crop st true w h = (st, some ())) ∧
    (∀ (st : ResultState) (w h : Nat), resize st true w h = (st, some ())) := by
  refine ⟨?_, ?_, ?_⟩
  · intro st f w h hnone
    cases f <;> simp [crop] at hnone ⊢
  · intro st w h
    rfl
  · intro st w h
    rfl

/-- C9 witness: the crop conjunct at a concrete successful crop: only the
dimensions change. -/
theorem C9_frame_effects_witness :
    (crop ⟨10, 10, Orientation.rotate90, true⟩ false 4 6).2 = none ∧
    (crop ⟨10, 10, Orientation.rotate90, true⟩ false 4 6).1 =
      ⟨4, 6, Orientation.rotate90, true⟩ :=
  ⟨by decide, C9_frame_effects.1 ⟨10, 10, Orientation.rotate90, true⟩
    false 4 6 (by decide)⟩

/-- C10 counterexample: with working width 100 and crop target 101 (wider
than the image), the computed x offset is (100 - 101 + 1)/2 = 0, which is
not negative — the claim asserts a negative offset for every oversized
target. -/
theorem C10_offset_not_negative :
    100 < 101 ∧
    (cropBox ⟨100, 100, Orientation.normal, false⟩ 101 101).x = 0 ∧
    ¬ ((cropBox ⟨100, 100, Orientation.normal, false⟩ 101 101).x < 0) := by decide

/-- C10 (amended): for a target exceeding the current dimensions the
computed offsets are at most 0, strictly negative exactly when the target
exceeds the dimension by at least 3, and Crop performs no clamping and no
rejection: the box is handed on unchanged and the crop proceeds exactly as
for in-range targets, succeeding whenever the engine call does. -/
theorem C10_oversized_crop (st : ResultState) (w h : Nat)
    (hw : st.width < w) (hh : st.height < h) :
    (cropBox st w h).x ≤ 0 ∧ (cropBox st w h).y ≤ 0 ∧
    ((cropBox st w h).x < 0 ↔ st.width + 3 ≤ w) ∧
    ((cropBox st w h).y < 0 ↔ st.height + 3 ≤ h) ∧
    (∀ f : Bool, crop st f w h =
      if f then (st, some ()) else (⟨w, h, st.orientation, st.shrank⟩, none)) := by
  have hx : (cropBox st w h).x = -(((w - st.width - 1) / 2 : Nat) : Int) := by
    show Int.tdiv ((st.width : Int) - (w : Int) + 1) 2 = _
    rw [show (st.width : Int) - (w : Int) + 1 = -(((w - st.width - 1 : Nat) : Int)) by
      omega, Int.neg_tdiv]
    exact congrArg Neg.neg rfl
  have hy : (cropBox st w h).y = -(((h - st.height - 1) / 2 : Nat) : Int) := by
    show Int.tdiv ((st.height : Int) - (h : Int) + 1) 2 = _
    rw [show (st.height : Int) - (h : Int) + 1 = -(((h - st.height - 1 : Nat) : Int)) by
      omega, Int.neg_tdiv]
    exact congrArg Neg.neg rfl
  refine ⟨?_, ?_, ?_, ?_, ?_⟩
  · simp only [hx]
    omega
  · simp only [hy]
    omega
  · simp only [hx]
    omega
  · simp only [hy]
    omega
  · intro f
    rfl

/-- C10 witness: the amended offsets at the concrete oversized crop 105 of
a 100-wide image: offset non-positive and indeed negative since the excess
is at least 3. -/
theorem C10_oversized_crop_witness :
    (100 < 105) ∧ (cropBox ⟨100, 100, Orientation.normal, false⟩ 105 105).x ≤ 0 :=
  ⟨by decide, (C10_oversized_crop ⟨100, 100, Orientation.normal, false⟩ 105 105
    (by decide) (by decide)).1⟩

end Fotomat
